import Mathlib

/-!
Verification of the DNS telemetry subsystem of nordvpn-linux
(`daemon/dns/analytics.go` and the resolver-file monitor).

The Go source is shallowly embedded: the typed enums (`eventType`,
`dnsManagementService`, `errorType`) are Go `int` values, so they are
modelled as `Int` with the `iota` constants; `encoding/json` marshalling of
the two closed struct shapes is modelled by explicit string construction
following Go's encoder (field order is declaration order, embedded structs
are flattened in place, strings are quoted with the default HTML-escaping
encoder, booleans render as `true`/`false`); the mutable
`dnsAnalytics` value and its publisher are modelled by explicit state
passing.
-/

namespace DnsAnalytics

/-! ## Enum types and their display-name tables (analytics.go, lines 120-178) -/

/-- Go constant `resolvConfOverwrittenEventType eventType = iota` (value 0). -/
def resolvConfOverwrittenEventType : Int := 0

/-- Go constant `dnsConfiguredEventType` (value 1). -/
def dnsConfiguredEventType : Int := 1

/-- Go constant `dnsConfigurationErrorEventType` (value 2). -/
def dnsConfigurationErrorEventType : Int := 2

/-- Go's decimal rendering of an int, as produced by the
`fmt.Sprintf("%d", e)` fallback of the String methods. -/
def goIntString (i : Int) : String := toString i

/-- `func (e eventType) String() string` (analytics.go lines 128-139): a
switch over the defined constants with a decimal fallback. -/
def eventType.String (e : Int) : String :=
  if e = resolvConfOverwrittenEventType then "resolvconf_overwritten"
  else if e = dnsConfiguredEventType then "dns_configured"
  else if e = dnsConfigurationErrorEventType then "dns_configuration_error"
  else goIntString e

/-- True exactly when `eventType.String` takes its `default:` branch,
mirroring the same switch. -/
def eventTypeStringUsesFallback (e : Int) : Bool :=
  if e = resolvConfOverwrittenEventType then false
  else if e = dnsConfiguredEventType then false
  else if e = dnsConfigurationErrorEventType then false
  else true

/-- Go constant `systemdResolvedService dnsManagementService = iota` (value 0). -/
def systemdResolvedService : Int := 0

/-- Go constant `unmanagedService` (value 1). -/
def unmanagedService : Int := 1

/-- Go constant `unknownService` (value 2). -/
def unknownService : Int := 2

/-- `func (e dnsManagementService) String() string` (analytics.go lines
149-160). -/
def dnsManagementService.String (e : Int) : String :=
  if e = systemdResolvedService then "systemd-resolved"
  else if e = unmanagedService then "unmanaged"
  else if e = unknownService then "unknown"
  else goIntString e

/-- True exactly when `dnsManagementService.String` takes its `default:`
branch. -/
def dnsManagementServiceStringUsesFallback (e : Int) : Bool :=
  if e = systemdResolvedService then false
  else if e = unmanagedService then false
  else if e = unknownService then false
  else true

/-- Go constant `setFailedErrorType errorType = iota` (value 0). -/
def setFailedErrorType : Int := 0

/-- Go constant `detectionFailedErrorType` (value 1). -/
def detectionFailedErrorType : Int := 1

/-- `func (e errorType) String() string` (analytics.go lines 169-178). -/
def errorType.String (e : Int) : String :=
  if e = setFailedErrorType then "set_failed"
  else if e = detectionFailedErrorType then "failed_to_detect_management_service"
  else goIntString e

/-- True exactly when `errorType.String` takes its `default:` branch. -/
def errorTypeStringUsesFallback (e : Int) : Bool :=
  if e = setFailedErrorType then false
  else if e = detectionFailedErrorType then false
  else true

/-- The defined `eventType` constants. -/
def definedEventTypes : List Int :=
  [resolvConfOverwrittenEventType, dnsConfiguredEventType, dnsConfigurationErrorEventType]

/-- The defined `dnsManagementService` constants. -/
def definedManagementServices : List Int :=
  [systemdResolvedService, unmanagedService, unknownService]

/-- The defined `errorType` constants. -/
def definedErrorTypes : List Int := [setFailedErrorType, detectionFailedErrorType]

/-! ## Go `encoding/json` marshalling of the closed struct shapes -/

/-- Lowercase hexadecimal digit, as used by Go's JSON encoder in
numeric escapes. -/
def goHexDigit (n : Nat) : Char :=
  if n < 10 then Char.ofNat (48 + n) else Char.ofNat (87 + n)

/-- How Go's default (HTML-escaping) JSON encoder renders one character of
a string value: `"` and `\` are backslash-escaped, `<`, `>`, `&` and
control characters other than newline, carriage return and tab become
numeric escapes, U+2028 and U+2029 become numeric escapes, everything else
passes through. -/
def goJSONEscapeChar (c : Char) : String :=
  if c = Char.ofNat 34 then "\\\""
  else if c = Char.ofNat 92 then "\\\\"
  else if c = Char.ofNat 60 ∨ c = Char.ofNat 62 ∨ c = Char.ofNat 38 then
    "\\u00" ++ String.singleton (goHexDigit (c.toNat / 16)) ++
      String.singleton (goHexDigit (c.toNat % 16))
  else if c = Char.ofNat 10 then "\\n"
  else if c = Char.ofNat 13 then "\\r"
  else if c = Char.ofNat 9 then "\\t"
  else if c.toNat < 32 then
    "\\u00" ++ String.singleton (goHexDigit (c.toNat / 16)) ++
      String.singleton (goHexDigit (c.toNat % 16))
  else if c.toNat = 8232 ∨ c.toNat = 8233 then
    "\\u202" ++ String.singleton (goHexDigit (c.toNat % 16))
  else String.singleton c

/-- Go's JSON rendering of a string value: quoted, each character escaped
as the default encoder does. -/
def quoteGoJSON (s : String) : String :=
  "\"" ++ String.join (s.data.map goJSONEscapeChar) ++ "\""

/-- Go's JSON rendering of a bool value. -/
def goBoolString (b : Bool) : String := if b then "true" else "false"

/-! ## The event model (analytics.go, lines 13-118) -/

/-- Modelled from the spec: the fixed namespace constant
`internal.DebugEventMessageNamespace` from the `internal` package, which is
not part of the visible slice. The spec's payload scenarios (and the
package tests) fix its value to `"nordvpn-linux"`. -/
def DebugEventMessageNamespace : String := "nordvpn-linux"

/-- Constant `debuggerEventBaseKey = "dns"`. -/
def debuggerEventBaseKey : String := "dns"

/-- Constant `debuggerEventTypeKey = "type"`. -/
def debuggerEventTypeKey : String := "type"

/-- Constant `debuggerEventManagementServiceKey = "management_service"`. -/
def debuggerEventManagementServiceKey : String := "management_service"

/-- Constant `debuggerEventErrorTypeKey = "error_type"`. -/
def debuggerEventErrorTypeKey : String := "error_type"

/-- Constant `debuggerEventCriticalKey = "critical"`. -/
def debuggerEventCriticalKey : String := "critical"

/-- `var globalPaths = []string` (analytics.go lines 13-18). -/
def globalPaths : List String :=
  ["device.*", "application.nordvpnapp.*", "application.nordvpnapp.version",
   "application.nordvpnapp.platform"]

/-- `type event struct` (analytics.go lines 28-32): three string fields
with JSON tags `event`, `namespace`, `management_service`. -/
structure event where
  Event : String
  MessageNamespace : String
  ManagementService : String
deriving DecidableEq

/-- `func newEvent(eventType, messageNamespace, managementService) event`
(analytics.go lines 34-41). The `messageNamespace` parameter is accepted
but ignored by the source: the field is always set from
`internal.DebugEventMessageNamespace`. -/
def newEvent (et : Int) (messageNamespace : String) (managementService : Int) : event :=
  let _ := messageNamespace
  { Event := eventType.String et,
    MessageNamespace := DebugEventMessageNamespace,
    ManagementService := dnsManagementService.String managementService }

/-- `json.Marshal` on an `event` value: a flat object whose keys appear in
field-declaration order. -/
def event.marshal (e : event) : String :=
  "\x7b" ++ quoteGoJSON "event" ++ ":" ++ quoteGoJSON e.Event ++ "," ++
    quoteGoJSON "namespace" ++ ":" ++ quoteGoJSON e.MessageNamespace ++ "," ++
    quoteGoJSON "management_service" ++ ":" ++ quoteGoJSON e.ManagementService ++ "\x7d"

/-- `type errorEvent struct` (analytics.go lines 70-75): embeds `event`
and adds `ErrorType` (tag `error_type`) and `Critical` (tag `cricital`,
the misspelling is in the source). -/
structure errorEvent extends event where
  ErrorType : String
  Critical : Bool
deriving DecidableEq

/-- `func newErrorEvent(...)` (analytics.go lines 77-87). -/
def newErrorEvent (et : Int) (messageNamespace : String) (managementService : Int)
    (er : Int) (critical : Bool) : errorEvent :=
  ⟨newEvent et messageNamespace managementService, errorType.String er, critical⟩

/-- `json.Marshal` on an `errorEvent` value: the embedded `event`'s fields
are flattened in place (first, in declaration order), then `error_type`
and the misspelled `cricital` key. -/
def errorEvent.marshal (e : errorEvent) : String :=
  "\x7b" ++ quoteGoJSON "event" ++ ":" ++ quoteGoJSON e.Event ++ "," ++
    quoteGoJSON "namespace" ++ ":" ++ quoteGoJSON e.MessageNamespace ++ "," ++
    quoteGoJSON "management_service" ++ ":" ++ quoteGoJSON e.ManagementService ++ "," ++
    quoteGoJSON "error_type" ++ ":" ++ quoteGoJSON e.ErrorType ++ "," ++
    quoteGoJSON "cricital" ++ ":" ++ goBoolString e.Critical ++ "\x7d"

/-! ## Context paths and the publishable (debugger-event) form -/

/-- A context value carried by a debugger event. In Go the `Value` field is
an `interface` holding either a string or a bool in this subsystem. -/
inductive GoValue where
  | str (s : String)
  | bool (b : Bool)
deriving DecidableEq

/-- Modelled from the spec: `events.ContextValue` from the `events`
package (not part of the visible slice): a `(path, value)` pair. -/
structure ContextValue where
  Path : String
  Value : GoValue
deriving DecidableEq

/-- Modelled from the spec: `events.DebuggerEvent` from the `events`
package (not part of the visible slice): the publishable form, holding the
JSON payload string, the key-based context paths and the global context
paths. -/
structure DebuggerEvent where
  JsonData : String
  KeyBasedContextPaths : List ContextValue
  GlobalContextPaths : List String
deriving DecidableEq

/-- Modelled from the spec: `events.NewDebuggerEvent(jsonData)` builds a
debugger event with the given payload and empty context-path lists. -/
def NewDebuggerEvent (jsonData : String) : DebuggerEvent :=
  ⟨jsonData, [], []⟩

/-- Modelled from the spec: `WithKeyBasedContextPaths` installs the given
key-based context paths on the event. -/
def DebuggerEvent.WithKeyBasedContextPaths (e : DebuggerEvent)
    (paths : List ContextValue) : DebuggerEvent :=
  { e with KeyBasedContextPaths := paths }

/-- Modelled from the spec: `WithGlobalContextPaths` installs the given
global context paths on the event. -/
def DebuggerEvent.WithGlobalContextPaths (e : DebuggerEvent)
    (paths : List String) : DebuggerEvent :=
  { e with GlobalContextPaths := paths }

/-- `func (e event) toContextPaths() []events.ContextValue`
(analytics.go lines 43-54). -/
def event.toContextPaths (e : event) : List ContextValue :=
  [⟨debuggerEventBaseKey ++ "." ++ debuggerEventTypeKey, GoValue.str e.Event⟩,
   ⟨debuggerEventBaseKey ++ "." ++ debuggerEventManagementServiceKey,
     GoValue.str e.ManagementService⟩]

/-- `func (e errorEvent) toContextPaths() []events.ContextValue`
(analytics.go lines 89-102): the error-specific pairs, then the embedded
event's pairs appended. -/
def errorEvent.toContextPaths (e : errorEvent) : List ContextValue :=
  [⟨debuggerEventBaseKey ++ "." ++ debuggerEventErrorTypeKey, GoValue.str e.ErrorType⟩,
   ⟨debuggerEventBaseKey ++ "." ++ debuggerEventCriticalKey, GoValue.bool e.Critical⟩]
  ++ e.toevent.toContextPaths

/-- The payload actually used, given `json.Marshal`'s result: the
marshalled bytes on success, the literal empty object on failure. This is
the `if err != nil` branch of both `toDebuggerEvent` methods
(analytics.go lines 57-61 and 105-111). -/
def payloadOrEmpty : Except String String → String
  | Except.ok jsonData => jsonData
  | Except.error _ => "\x7b\x7d"

/-- `json.Marshal` applied to an `event` value, with the `(bytes, err)`
return mirrored as `Except`. A Go struct of three plain string fields
always marshals successfully, so the error branch is never taken. -/
def jsonMarshalEvent (e : event) : Except String String :=
  Except.ok e.marshal

/-- `json.Marshal` applied to an `errorEvent` value; as for `event`, the
closed shape (strings and a bool) always marshals successfully. -/
def jsonMarshalErrorEvent (e : errorEvent) : Except String String :=
  Except.ok e.marshal

/-- The builder chain of `event.toDebuggerEvent` (analytics.go lines
56-68), generalized over the marshal result so the error-handling branch
can be examined: payload (or the empty object on failure), then the
event's context paths, then the global paths. -/
def event.toDebuggerEventCore (e : event) (marshalResult : Except String String) :
    DebuggerEvent :=
  ((NewDebuggerEvent (payloadOrEmpty marshalResult)).WithKeyBasedContextPaths
      e.toContextPaths).WithGlobalContextPaths globalPaths

/-- `func (e event) toDebuggerEvent() *events.DebuggerEvent`
(analytics.go lines 56-68). -/
def event.toDebuggerEvent (e : event) : DebuggerEvent :=
  e.toDebuggerEventCore (jsonMarshalEvent e)

/-- The builder chain of `errorEvent.toDebuggerEvent` (analytics.go lines
104-118), generalized over the marshal result. -/
def errorEvent.toDebuggerEventCore (e : errorEvent)
    (marshalResult : Except String String) : DebuggerEvent :=
  ((NewDebuggerEvent (payloadOrEmpty marshalResult)).WithKeyBasedContextPaths
      e.toContextPaths).WithGlobalContextPaths globalPaths

/-- `func (e errorEvent) toDebuggerEvent() *events.DebuggerEvent`
(analytics.go lines 104-118). -/
def errorEvent.toDebuggerEvent (e : errorEvent) : DebuggerEvent :=
  e.toDebuggerEventCore (jsonMarshalErrorEvent e)

/-! ## The analytics reporter (analytics.go, lines 180-247) -/

/-- The external publisher, modelled as an identity plus the list of
events delivered to `Publish`, in order. -/
structure Publisher where
  id : Nat
  published : List DebuggerEvent
deriving DecidableEq

/-- `Publish(event)`: the publisher receives one finished event. -/
def Publisher.Publish (p : Publisher) (e : DebuggerEvent) : Publisher :=
  { p with published := p.published ++ [e] }

/-- `type dnsAnalytics struct` (analytics.go lines 187-191): the
publisher reference and the guarded `managementService` field (the mutex
itself carries no data and is modelled by the sequential state passing). -/
structure dnsAnalytics where
  debugPublisher : Publisher
  managementService : Int
deriving DecidableEq

/-- `func newDNSAnalytics(publisher)` (analytics.go lines 193-198):
starts with `unknownService`. -/
def newDNSAnalytics (publisher : Publisher) : dnsAnalytics :=
  { debugPublisher := publisher, managementService := unknownService }

/-- `func (d *dnsAnalytics) setManagementService(...)` (analytics.go
lines 201-206). -/
def dnsAnalytics.setManagementService (d : dnsAnalytics)
    (managementService : Int) : dnsAnalytics :=
  { d with managementService := managementService }

/-- `func (d *dnsAnalytics) emitResolvConfOverwrittenEvent()`
(analytics.go lines 208-219). -/
def dnsAnalytics.emitResolvConfOverwrittenEvent (d : dnsAnalytics) : dnsAnalytics :=
  let debuggerEvent := (newEvent resolvConfOverwrittenEventType
    DebugEventMessageNamespace d.managementService).toDebuggerEvent
  { d with debugPublisher := d.debugPublisher.Publish debuggerEvent }

/-- `func (d *dnsAnalytics) emitDNSConfiguredEvent()`
(analytics.go lines 221-232). -/
def dnsAnalytics.emitDNSConfiguredEvent (d : dnsAnalytics) : dnsAnalytics :=
  let debuggerEvent := (newEvent dnsConfiguredEventType
    DebugEventMessageNamespace d.managementService).toDebuggerEvent
  { d with debugPublisher := d.debugPublisher.Publish debuggerEvent }

/-- `func (d *dnsAnalytics) emitDNSConfigurationErrorEvent(errorType, critical)`
(analytics.go lines 234-247). -/
def dnsAnalytics.emitDNSConfigurationErrorEvent (d : dnsAnalytics)
    (er : Int) (critical : Bool) : dnsAnalytics :=
  let debuggerEvent := (newErrorEvent dnsConfigurationErrorEventType
    DebugEventMessageNamespace d.managementService er critical).toDebuggerEvent
  { d with debugPublisher := d.debugPublisher.Publish debuggerEvent }

/-- One emit operation of the `analytics` interface (analytics.go lines
180-185), with the arguments the error emit takes. -/
inductive EmitOp where
  | resolvConfOverwritten
  | dnsConfigured
  | dnsConfigurationError (er : Int) (critical : Bool)
deriving DecidableEq

/-- Dispatch one emit operation on the reporter state. -/
def runEmit : EmitOp → dnsAnalytics → dnsAnalytics
  | EmitOp.resolvConfOverwritten, d => d.emitResolvConfOverwrittenEvent
  | EmitOp.dnsConfigured, d => d.emitDNSConfiguredEvent
  | EmitOp.dnsConfigurationError er c, d => d.emitDNSConfigurationErrorEvent er c

/-- Run a sequence of emit operations, oldest first. -/
def runEmits : List EmitOp → dnsAnalytics → dnsAnalytics
  | [], d => d
  | op :: ops, d => runEmits ops (runEmit op d)

/-- The value stored under the `dns.management_service` context path of a
debugger event, if any. -/
def DebuggerEvent.managementServiceValue (e : DebuggerEvent) : Option GoValue :=
  (e.KeyBasedContextPaths.find? fun cv =>
    cv.Path == debuggerEventBaseKey ++ "." ++ debuggerEventManagementServiceKey).map
    ContextValue.Value

/-! ## The resolver-file monitor

The monitor implementation (`resolvConfFileWatcherMonitor`) is not part of
the visible slice; only its unit test is. Its loop is modelled from the
spec: after `Start()` it reads from two channels — raw file-system
notifications and watcher-level errors — treats any notification on the
watched path as a trigger for exactly one `EmitResolvConfOverwrittenEvent`
call, and logs watcher errors and continues. -/

/-- Modelled from the spec: `fsnotify.Event`, a raw file-system
notification carrying a path name and an operation code. The monitor
triggers on any notification regardless of these fields. -/
structure FsEvent where
  Name : String
  Op : Nat
deriving DecidableEq

/-- Modelled from the spec: one message received by the monitor loop, from
either of its two input channels. -/
inductive WatcherMsg where
  | notification (ev : FsEvent)
  | watchError (err : String)
deriving DecidableEq

/-- True exactly for messages from the notification channel. -/
def WatcherMsg.isNotification : WatcherMsg → Bool
  | WatcherMsg.notification _ => true
  | WatcherMsg.watchError _ => false

/-- A call the monitor makes into the analytics reporter. -/
inductive MonitorEmit where
  | resolvConfOverwritten
deriving DecidableEq

/-- Modelled from the spec: the emissions the monitor loop performs while
consuming a finite prefix of its message stream — one
`EmitResolvConfOverwrittenEvent` call per notification, none for a
watcher-level error, and the loop always continues to the next message. -/
def monitorEmits : List WatcherMsg → List MonitorEmit
  | [] => []
  | WatcherMsg.notification _ :: rest => MonitorEmit.resolvConfOverwritten :: monitorEmits rest
  | WatcherMsg.watchError _ :: rest => monitorEmits rest

/-! ## Lock-scope traces of the emit operations

Each emit method of `dnsAnalytics` runs `d.mu.Lock()` first and defers
`d.mu.Unlock()`, so the unlock happens when the method returns; in
between it builds the event (reading `d.managementService`), logs, and
calls `Publish`. The order of these atomic steps is recorded as a trace. -/

/-- One step of an emit method, in program order. -/
inductive LockAction where
  | lock
  | readManagementService
  | logLine
  | publish
  | unlock
deriving DecidableEq

/-- Program-order steps of `emitResolvConfOverwrittenEvent`
(analytics.go lines 208-219): `mu.Lock()`, the event construction
reading `d.managementService`, the log line, `Publish`, and the deferred
`mu.Unlock()` on return. -/
def emitResolvConfOverwrittenEventActions : List LockAction :=
  [LockAction.lock, LockAction.readManagementService, LockAction.logLine,
   LockAction.publish, LockAction.unlock]

/-- Program-order steps of `emitDNSConfiguredEvent` (analytics.go lines
221-232): same shape. -/
def emitDNSConfiguredEventActions : List LockAction :=
  [LockAction.lock, LockAction.readManagementService, LockAction.logLine,
   LockAction.publish, LockAction.unlock]

/-- Program-order steps of `emitDNSConfigurationErrorEvent`
(analytics.go lines 234-247): same shape. -/
def emitDNSConfigurationErrorEventActions : List LockAction :=
  [LockAction.lock, LockAction.readManagementService, LockAction.logLine,
   LockAction.publish, LockAction.unlock]

/-- The claim's property for one emit trace: the mutex is released before
the `Publish` call occurs. -/
def releasedBeforePublish (t : List LockAction) : Prop :=
  t.indexOf LockAction.unlock < t.indexOf LockAction.publish

/-- The lock is held across the `Publish` call: it is acquired before the
publish step and released only after it. -/
def heldAcrossPublish (t : List LockAction) : Prop :=
  t.indexOf LockAction.lock < t.indexOf LockAction.publish ∧
  t.indexOf LockAction.publish < t.indexOf LockAction.unlock

/-- The debugger event each emit operation builds from the current
management-service value, exactly as the three emit methods do. -/
def emittedDebuggerEvent : EmitOp → Int → DebuggerEvent
  | EmitOp.resolvConfOverwritten, ms =>
      (newEvent resolvConfOverwrittenEventType DebugEventMessageNamespace ms).toDebuggerEvent
  | EmitOp.dnsConfigured, ms =>
      (newEvent dnsConfiguredEventType DebugEventMessageNamespace ms).toDebuggerEvent
  | EmitOp.dnsConfigurationError er c, ms =>
      (newErrorEvent dnsConfigurationErrorEventType DebugEventMessageNamespace ms er c).toDebuggerEvent

/-! ## Helper lemmas -/

theorem runEmit_managementService (op : EmitOp) (d : dnsAnalytics) :
    (runEmit op d).managementService = d.managementService := by
  cases op <;> rfl

theorem runEmit_published (op : EmitOp) (d : dnsAnalytics) :
    (runEmit op d).debugPublisher.published =
      d.debugPublisher.published ++ [emittedDebuggerEvent op d.managementService] := by
  cases op <;> rfl

theorem emittedDebuggerEvent_service (op : EmitOp) (ms : Int) :
    (emittedDebuggerEvent op ms).managementServiceValue =
      some (GoValue.str (dnsManagementService.String ms)) := by
  cases op <;> rfl

theorem runEmits_published (ops : List EmitOp) (d : dnsAnalytics) :
    (runEmits ops d).debugPublisher.published =
      d.debugPublisher.published ++ ops.map (fun op => emittedDebuggerEvent op d.managementService) := by
  induction ops generalizing d with
  | nil => simp [runEmits]
  | cons op ops ih =>
      rw [runEmits, ih, runEmit_published, runEmit_managementService]
      simp [List.append_assoc]

theorem map_emitted_service (ops : List EmitOp) (s : Int) :
    (ops.map fun op => emittedDebuggerEvent op s).map DebuggerEvent.managementServiceValue =
      List.replicate ops.length (some (GoValue.str (dnsManagementService.String s))) := by
  induction ops with
  | nil => rfl
  | cons op ops ih =>
      simp only [List.map_cons, List.length_cons, List.replicate_succ,
        emittedDebuggerEvent_service, ih]

/-! ## Claim theorems -/

/-- C1: for every pair of defined `eventType` and `dnsManagementService`
constants, building a plain event with `newEvent` and converting it to its
publishable form yields exactly the JSON byte string
`\x7b"event":"<event-name>","namespace":"nordvpn-linux","management_service":"<service-name>"\x7d`,
with the variant display strings substituted and the keys in exactly this
order. -/
theorem plain_event_publishable_json :
    ∀ et ∈ definedEventTypes, ∀ ms ∈ definedManagementServices,
      (newEvent et DebugEventMessageNamespace ms).toDebuggerEvent.JsonData =
        "\x7b\"event\":\"" ++ eventType.String et ++
          "\",\"namespace\":\"nordvpn-linux\",\"management_service\":\"" ++
          dnsManagementService.String ms ++ "\"\x7d" := by
  decide

/-- Witness for C1 at the concrete pair
(`resolvConfOverwrittenEventType`, `systemdResolvedService`). -/
theorem plain_event_publishable_json_witness :
    (newEvent resolvConfOverwrittenEventType DebugEventMessageNamespace
        systemdResolvedService).toDebuggerEvent.JsonData =
      "\x7b\"event\":\"" ++ eventType.String resolvConfOverwrittenEventType ++
        "\",\"namespace\":\"nordvpn-linux\",\"management_service\":\"" ++
        dnsManagementService.String systemdResolvedService ++ "\"\x7d" :=
  plain_event_publishable_json resolvConfOverwrittenEventType (by decide)
    systemdResolvedService (by decide)

set_option maxRecDepth 4096 in
/-- C2: for every triple of defined `dnsManagementService` and `errorType`
constants and critical flag, building an error event with `newErrorEvent`
for the `dns_configuration_error` event type and converting it to its
publishable form yields exactly the JSON
`\x7b"event":"dns_configuration_error","namespace":"nordvpn-linux","management_service":"<service-name>","error_type":"<error-name>","cricital":<bool>\x7d`,
with the literal misspelled key `cricital` and the bool rendered as
lowercase `true`/`false`. -/
theorem error_event_publishable_json :
    ∀ ms ∈ definedManagementServices, ∀ er ∈ definedErrorTypes, ∀ b : Bool,
      (newErrorEvent dnsConfigurationErrorEventType DebugEventMessageNamespace
          ms er b).toDebuggerEvent.JsonData =
        "\x7b\"event\":\"dns_configuration_error\",\"namespace\":\"nordvpn-linux\",\"management_service\":\"" ++
          dnsManagementService.String ms ++ "\",\"error_type\":\"" ++
          errorType.String er ++ "\",\"cricital\":" ++
          (if b then "true" else "false") ++ "\x7d" := by
  decide

/-- Witness for C2 at the concrete triple
(`unmanagedService`, `setFailedErrorType`, `false`). -/
theorem error_event_publishable_json_witness :
    (newErrorEvent dnsConfigurationErrorEventType DebugEventMessageNamespace
        unmanagedService setFailedErrorType false).toDebuggerEvent.JsonData =
      "\x7b\"event\":\"dns_configuration_error\",\"namespace\":\"nordvpn-linux\",\"management_service\":\"" ++
        dnsManagementService.String unmanagedService ++ "\",\"error_type\":\"" ++
        errorType.String setFailedErrorType ++ "\",\"cricital\":" ++
        (if false then "true" else "false") ++ "\x7d" :=
  error_event_publishable_json unmanagedService (by decide) setFailedErrorType
    (by decide) false

/-- C3: a fresh reporter holds `unknownService`; an emit performed before
any set publishes a payload whose `management_service` is `"unknown"`;
and after `setManagementService s`, every event published by any
subsequent sequence of emit operations (sequential use, no intervening
set) carries the display string of `s`, the most recently set value. -/
theorem reporter_management_service_state :
    (∀ p : Publisher, (newDNSAnalytics p).managementService = unknownService) ∧
    (∀ (p : Publisher) (op : EmitOp),
      ((runEmit op (newDNSAnalytics p)).debugPublisher.published.drop
          p.published.length).map DebuggerEvent.managementServiceValue =
        [some (GoValue.str "unknown")]) ∧
    (∀ (d : dnsAnalytics) (s : Int) (ops : List EmitOp),
      ((runEmits ops (d.setManagementService s)).debugPublisher.published.drop
          d.debugPublisher.published.length).map DebuggerEvent.managementServiceValue =
        List.replicate ops.length (some (GoValue.str (dnsManagementService.String s)))) := by
  refine ⟨fun p => rfl, fun p op => ?_, fun d s ops => ?_⟩
  · rw [show (runEmit op (newDNSAnalytics p)).debugPublisher.published =
        p.published ++ [emittedDebuggerEvent op unknownService] from
        runEmit_published op (newDNSAnalytics p), List.drop_left]
    simp only [List.map_cons, List.map_nil, emittedDebuggerEvent_service]
    rfl
  · rw [show (runEmits ops (d.setManagementService s)).debugPublisher.published =
        d.debugPublisher.published ++ (ops.map fun op => emittedDebuggerEvent op s) from
        runEmits_published ops (d.setManagementService s), List.drop_left]
    exact map_emitted_service ops s

/-- C4: the conversion to publishable form handles a failed JSON
serialization by substituting the empty-object payload while keeping the
context paths, and — the marshal result being consumed internally — the
conversions and the emit operations are total functions that never return
a serialization error to the caller. -/
theorem serialization_failure_recovered :
    ∀ (e : event) (ee : errorEvent) (msg msg2 : String),
      (e.toDebuggerEventCore (Except.error msg)).JsonData = "\x7b\x7d" ∧
      (e.toDebuggerEventCore (Except.error msg)).KeyBasedContextPaths = e.toContextPaths ∧
      (e.toDebuggerEventCore (Except.error msg)).GlobalContextPaths = globalPaths ∧
      (ee.toDebuggerEventCore (Except.error msg2)).JsonData = "\x7b\x7d" ∧
      (ee.toDebuggerEventCore (Except.error msg2)).KeyBasedContextPaths = ee.toContextPaths ∧
      (ee.toDebuggerEventCore (Except.error msg2)).GlobalContextPaths = globalPaths ∧
      e.toDebuggerEvent = e.toDebuggerEventCore (jsonMarshalEvent e) ∧
      ee.toDebuggerEvent = ee.toDebuggerEventCore (jsonMarshalErrorEvent ee) :=
  fun _ _ _ _ => ⟨rfl, rfl, rfl, rfl, rfl, rfl, rfl, rfl⟩

/-- C5: `toContextPaths` of an error event is exactly the four pairs
`dns.error_type`, `dns.critical`, `dns.type`, `dns.management_service` in
this order (error-specific pairs first), and of a plain event exactly
`dns.type` then `dns.management_service`; every path is the base segment
`dns` joined to the field key with `.`. -/
theorem context_paths_order :
    (∀ e : event, e.toContextPaths =
      [⟨"dns" ++ "." ++ "type", GoValue.str e.Event⟩,
       ⟨"dns" ++ "." ++ "management_service", GoValue.str e.ManagementService⟩]) ∧
    (∀ ee : errorEvent, ee.toContextPaths =
      [⟨"dns" ++ "." ++ "error_type", GoValue.str ee.ErrorType⟩,
       ⟨"dns" ++ "." ++ "critical", GoValue.bool ee.Critical⟩,
       ⟨"dns" ++ "." ++ "type", GoValue.str ee.Event⟩,
       ⟨"dns" ++ "." ++ "management_service", GoValue.str ee.ManagementService⟩]) :=
  ⟨fun _ => rfl, fun _ => rfl⟩

/-- C6: after the monitor starts its loop, one raw file-system
notification on the watched path produces exactly one
`EmitResolvConfOverwrittenEvent` call, regardless of the notification's
contents; in general the loop emits exactly one call per notification
received. -/
theorem monitor_one_notification_one_emit :
    (∀ ev : FsEvent, monitorEmits [WatcherMsg.notification ev] =
      [MonitorEmit.resolvConfOverwritten]) ∧
    (∀ msgs : List WatcherMsg,
      (monitorEmits msgs).length = msgs.countP WatcherMsg.isNotification) := by
  refine ⟨fun ev => rfl, fun msgs => ?_⟩
  induction msgs with
  | nil => rfl
  | cons m rest ih =>
      cases m <;> simp [monitorEmits, List.countP_cons, WatcherMsg.isNotification, ih]

/-- C7: watcher-level errors never terminate the monitor loop: after any
sequence of watcher errors, a subsequent valid notification still produces
its overwrite-event emission. -/
theorem monitor_survives_watcher_errors :
    ∀ (errs : List String) (ev : FsEvent),
      monitorEmits (errs.map WatcherMsg.watchError ++ [WatcherMsg.notification ev]) =
        [MonitorEmit.resolvConfOverwritten] := by
  intro errs ev
  induction errs with
  | nil => rfl
  | cons e rest ih =>
      simpa only [List.map_cons, List.cons_append, monitorEmits] using ih

/-- C8 counterexample: in `emitResolvConfOverwrittenEvent` the mutex is
not released before the `Publish` call — the deferred unlock runs at
method return, after the publish step, refuting the claim that the lock
is held only for the single field access. -/
theorem lock_released_before_publish_false :
    ¬ releasedBeforePublish emitResolvConfOverwrittenEventActions := by
  unfold releasedBeforePublish
  decide

/-- C8 amended: in every emit operation the lock is acquired at entry and
released only when the operation returns, after the `Publish` call — the
lock is held across `Publish`, not released before it. -/
theorem lock_held_across_publish :
    heldAcrossPublish emitResolvConfOverwrittenEventActions ∧
    heldAcrossPublish emitDNSConfiguredEventActions ∧
    heldAcrossPublish emitDNSConfigurationErrorEventActions := by
  unfold heldAcrossPublish
  decide

/-- C9: each enum's `String` method returns exactly the spec-listed
display name on every defined constant, and the decimal fallback branch is
not taken on any defined constant. -/
theorem enum_display_names_total :
    eventType.String resolvConfOverwrittenEventType = "resolvconf_overwritten" ∧
    eventType.String dnsConfiguredEventType = "dns_configured" ∧
    eventType.String dnsConfigurationErrorEventType = "dns_configuration_error" ∧
    dnsManagementService.String systemdResolvedService = "systemd-resolved" ∧
    dnsManagementService.String unmanagedService = "unmanaged" ∧
    dnsManagementService.String unknownService = "unknown" ∧
    errorType.String setFailedErrorType = "set_failed" ∧
    errorType.String detectionFailedErrorType = "failed_to_detect_management_service" ∧
    eventTypeStringUsesFallback resolvConfOverwrittenEventType = false ∧
    eventTypeStringUsesFallback dnsConfiguredEventType = false ∧
    eventTypeStringUsesFallback dnsConfigurationErrorEventType = false ∧
    dnsManagementServiceStringUsesFallback systemdResolvedService = false ∧
    dnsManagementServiceStringUsesFallback unmanagedService = false ∧
    dnsManagementServiceStringUsesFallback unknownService = false ∧
    errorTypeStringUsesFallback setFailedErrorType = false ∧
    errorTypeStringUsesFallback detectionFailedErrorType = false := by
  decide

/-- C10: `setManagementService` only replaces the `managementService`
field — the publisher reference is unchanged and nothing is published
during the call. -/
theorem set_management_service_frame :
    ∀ (d : dnsAnalytics) (s : Int),
      (d.setManagementService s).managementService = s ∧
      (d.setManagementService s).debugPublisher = d.debugPublisher ∧
      (d.setManagementService s).debugPublisher.published =
        d.debugPublisher.published :=
  fun _ _ => ⟨rfl, rfl, rfl⟩

end DnsAnalytics
